import Mathlib

/-! Shallow embedding of `lib/estimation.js` from the package-quality
repository: the quality-estimation pipeline (repository locator, issue
scorer, download scorer, registry lookup, version scorer).  Network fetches
are modelled as environment-supplied outcomes (the HTTP transport and
`JSON.parse` are external collaborators), and JavaScript number arithmetic
is modelled by rationals extended with the two infinities and NaN, so that
the `1 - 1/0` edge cases of the source are represented faithfully.  `null`
and `undefined` values of JavaScript are modelled with `Option`. -/

/-- JavaScript numbers as used by the estimation code: a finite rational,
one of the two infinities, or NaN. -/
inductive JsNum where
  | fin : ℚ → JsNum
  | posInf : JsNum
  | negInf : JsNum
  | nan : JsNum
deriving DecidableEq, Repr

/-- JavaScript subtraction `a - b` on the modelled numbers. -/
def JsNum.sub : JsNum → JsNum → JsNum
  | .fin a, .fin b => .fin (a - b)
  | .fin _, .posInf => .negInf
  | .fin _, .negInf => .posInf
  | .posInf, .fin _ => .posInf
  | .negInf, .fin _ => .negInf
  | .posInf, .negInf => .posInf
  | .negInf, .posInf => .negInf
  | _, _ => .nan

/-- JavaScript division `a / b` (positive zero only: the sums and counts the
source divides by are produced from JSON data without a negative zero). -/
def JsNum.div : JsNum → JsNum → JsNum
  | .fin a, .fin b =>
      if b = 0 then (if a = 0 then .nan else if a > 0 then .posInf else .negInf)
      else .fin (a / b)
  | .fin _, .posInf => .fin 0
  | .fin _, .negInf => .fin 0
  | .posInf, .fin b => if b ≥ 0 then .posInf else .negInf
  | .negInf, .fin b => if b ≥ 0 then .negInf else .posInf
  | _, _ => .nan

/-- JavaScript multiplication `a * b` on the modelled numbers. -/
def JsNum.mul : JsNum → JsNum → JsNum
  | .fin a, .fin b => .fin (a * b)
  | .fin a, .posInf => if a = 0 then .nan else if a > 0 then .posInf else .negInf
  | .posInf, .fin a => if a = 0 then .nan else if a > 0 then .posInf else .negInf
  | .fin a, .negInf => if a = 0 then .nan else if a > 0 then .negInf else .posInf
  | .negInf, .fin a => if a = 0 then .nan else if a > 0 then .negInf else .posInf
  | .posInf, .posInf => .posInf
  | .negInf, .negInf => .posInf
  | .posInf, .negInf => .negInf
  | .negInf, .posInf => .negInf
  | _, _ => .nan

/-- JavaScript strict comparison `a > b` (false whenever NaN is involved). -/
def JsNum.gt : JsNum → JsNum → Bool
  | .nan, _ => false
  | _, .nan => false
  | .fin a, .fin b => decide (b < a)
  | .posInf, .posInf => false
  | .posInf, _ => true
  | _, .posInf => false
  | .fin _, .negInf => true
  | .negInf, _ => false

/-- Does the character list `s` start with the character list `pat`? -/
def startsWithList : List Char → List Char → Bool
  | _, [] => true
  | [], _ :: _ => false
  | a :: as, b :: bs => a = b && startsWithList as bs

/-- Characters of `s` strictly before the first occurrence of `sep`; all of
`s` when `sep` does not occur.  List-level model of the `substringUpTo`
string helper of the `prototypes` npm package used by the source. -/
def upToFirst (sep : List Char) : List Char → List Char
  | [] => []
  | c :: rest => if startsWithList (c :: rest) sep then [] else c :: upToFirst sep rest

/-- Characters of `s` strictly after the first occurrence of `sep`; empty
when `sep` does not occur.  List-level model of the `substringFrom` string
helper of the `prototypes` npm package used by the source. -/
def fromFirst (sep : List Char) : List Char → List Char
  | [] => []
  | c :: rest => if startsWithList (c :: rest) sep then (c :: rest).drop sep.length else fromFirst sep rest

/-- Does `sep` occur as a contiguous sublist of `s`? -/
def occursIn (sep : List Char) : List Char → Bool
  | [] => sep.isEmpty
  | c :: rest => startsWithList (c :: rest) sep || occursIn sep rest

/-- Accumulator-style splitting of a character list on a separator
character, keeping empty segments, as JavaScript `split` does. -/
def splitOnCharAux (sep : Char) : List Char → List Char → List (List Char)
  | [], acc => [acc.reverse]
  | c :: rest, acc =>
      if c = sep then acc.reverse :: splitOnCharAux sep rest []
      else splitOnCharAux sep rest (c :: acc)

/-- JavaScript `s.startsWith(pre)`. -/
def jsStartsWith (s pre : String) : Bool := startsWithList s.data pre.data

/-- JavaScript `s.substringFrom(t)` from the `prototypes` package. -/
def substringFrom (s t : String) : String := String.mk (fromFirst t.data s.data)

/-- JavaScript `s.substringUpTo(t)` from the `prototypes` package. -/
def substringUpTo (s t : String) : String := String.mk (upToFirst t.data s.data)

/-- JavaScript `s.split(sep)` for a one-character separator. -/
def jsSplit (s : String) (sep : Char) : List String :=
  (splitOnCharAux sep s.data []).map String.mk

/-- Truthiness test for an optional JavaScript string: `undefined`/`null`
and the empty string are falsy. -/
def isFalsyStr : Option String → Bool
  | none => true
  | some s => s == ""

/-- A repository descriptor as found in a package entry (`repository`
field); `type` and `url` may each be absent. -/
structure Repo where
  type : Option String
  url : Option String
deriving DecidableEq, Repr

/-- A package entry given to `estimate`; the `name` field may be absent. -/
structure Entry where
  name : Option String
  repository : Option Repo
deriving DecidableEq, Repr

/-- Result of `extractPieces` / `extractRepoInfo`: the source returns either
an object with `valid:true` plus owner and name, or the empty object, whose
missing `valid` field is falsy.  The empty object is modelled as
`valid := false` with empty owner and name. -/
structure RepoLocation where
  valid : Bool
  owner : String
  name : String
deriving DecidableEq, Repr

/-- One issue of the fetched issue list; only its `state` field is read. -/
structure Issue where
  state : String
deriving DecidableEq, Repr

/-- One sample of the fetched download series; only `downloads` is read. -/
structure DownloadItem where
  downloads : ℚ
deriving DecidableEq, Repr

/-- Parsed body of the download-series fetch: the `downloads` field may be
absent (the source tests membership with `in`). -/
structure DownloadsBody where
  downloads : Option (List DownloadItem)
deriving DecidableEq, Repr

/-- Parsed body of the registry-metadata fetch: the `versions` field may be
absent; a versions map is modelled by its list of keys, whose length is
what `countProperties` returns. -/
structure RegistryBody where
  versions : Option (List String)
deriving DecidableEq, Repr

/-- The part of an HTTP response object the source reads. -/
structure Response where
  statusCode : Int
deriving DecidableEq, Repr

/-- Outcome of one `request.get` call plus the behaviour of `JSON.parse` on
its body, supplied by the environment: the `error` and `response` arguments
of the callback, the raw body text, and the parse result of the body
(`Except.error` models a thrown parse exception, carrying its message). -/
structure FetchOutcome (β : Type) where
  error : Option String
  response : Option Response
  bodyText : String
  parsed : Except String β

/-- Environment of one `estimate` run: the outcome each of the three
network fetches would have if performed. -/
structure Env where
  issuesFetch : FetchOutcome (List Issue)
  downloadsFetch : FetchOutcome DownloadsBody
  registryFetch : FetchOutcome RegistryBody

/-- A network fetch performed by the pipeline, recorded in a trace. -/
inductive Fetch where
  | issues (owner name : String)
  | downloads (name : String)
  | registry (name : String)
deriving DecidableEq, Repr

/-- Result of a pipeline step: `ok` models `callback(null, value)`, `err`
models `callback(error)` (which aborts the waterfall), and `fault` models a
thrown runtime `TypeError`. -/
inductive Outcome (α : Type) where
  | ok : α → Outcome α
  | err : String → Outcome α
  | fault : String → Outcome α
deriving DecidableEq, Repr

/-- Message of the `TypeError` thrown by reading `response.statusCode` when
the callback got no response object. -/
def statusCodeFaultMsg : String := "TypeError: cannot read statusCode of undefined"

/-- Message of the `TypeError` thrown by reading `registryResponse.versions`
when the registry stage passed `null` forward. -/
def versionsFaultMsg : String := "TypeError: cannot read versions of null"

/-- The `extractPieces` helper of the source: split on `/`, demand exactly
`initial + 2` segments, else return the invalid location; the name segment
is cut by `substringUpTo('.git')`. -/
def extractPieces (remaining : String) (initial : Nat) : RepoLocation :=
  let pieces := jsSplit remaining '/'
  if pieces.length ≠ initial + 2 then ⟨false, "", ""⟩
  else ⟨true, pieces.getD initial "", substringUpTo (pieces.getD (initial + 1) "") ".git"⟩

/-- The `extractRepoInfo` function of the source. -/
def extractRepoInfo (repo : Option Repo) : Option RepoLocation :=
  match repo with
  | none => none
  | some r =>
    if isFalsyStr r.type || isFalsyStr r.url then none
    else
      let t := r.type.getD ""
      let u := r.url.getD ""
      if t ≠ "git" then none
      else if jsStartsWith u "git@github.com:" then
        some (extractPieces (substringFrom u "git@github.com:") 0)
      else if jsStartsWith u "git://github.com:" then
        some (extractPieces (substringFrom u "git://github.com:") 0)
      else some (extractPieces u 3)

/-- The issue score computed by `estimateRepo` from a parsed issue list:
zero when the total count is zero, else `1 - open/total`, where `total`
counts every issue and `open` counts those with state `"open"`. -/
def issueQuality (issues : List Issue) : JsNum :=
  let total := issues.length
  let opened := issues.countP (fun i => i.state == "open")
  if total = 0 then .fin 0
  else JsNum.sub (.fin 1) (JsNum.div (.fin (opened : ℚ)) (.fin (total : ℚ)))

/-- The `estimateRepo` function of the source, returning its callback
outcome together with the trace of fetches it performed. -/
def estimateRepo (env : Env) (repo : Option Repo) : Outcome JsNum × List Fetch :=
  match extractRepoInfo repo with
  | none => (.ok (.fin 0), [])
  | some info =>
    if !info.valid then (.ok (.fin 0), [])
    else
      match env.issuesFetch.error with
      | some _ => (.ok (.fin 0), [Fetch.issues info.owner info.name])
      | none =>
        match env.issuesFetch.parsed with
        | .error exc =>
          (.err ("Invalid issues in " ++ env.issuesFetch.bodyText ++ ": " ++ exc),
            [Fetch.issues info.owner info.name])
        | .ok issues => (.ok (issueQuality issues), [Fetch.issues info.owner info.name])

/-- The download score computed by `estimateDownloadsLastYear` from a parsed
body: zero when the `downloads` field is absent, else `1 - 1/total` where
`total` sums all samples (JavaScript yields negative infinity at zero). -/
def downloadQuality (body : DownloadsBody) : JsNum :=
  match body.downloads with
  | none => .fin 0
  | some items =>
    let downloads : ℚ := (items.map DownloadItem.downloads).sum
    JsNum.sub (.fin 1) (JsNum.div (.fin 1) (.fin downloads))

/-- The `estimateDownloadsLastYear` function of the source.  On a transport
error the source reads `response.statusCode`, which faults when no response
object accompanies the error; both statusCode branches yield zero. -/
def estimateDownloadsLastYear (env : Env) (name : String) : Outcome JsNum × List Fetch :=
  match env.downloadsFetch.error with
  | some _ =>
    match env.downloadsFetch.response with
    | none => (.fault statusCodeFaultMsg, [Fetch.downloads name])
    | some resp =>
      if resp.statusCode = 404 then (.ok (.fin 0), [Fetch.downloads name])
      else (.ok (.fin 0), [Fetch.downloads name])
  | none =>
    match env.downloadsFetch.parsed with
    | .error exc => (.err ("Could not parse " ++ name ++ ": " ++ exc), [Fetch.downloads name])
    | .ok result => (.ok (downloadQuality result), [Fetch.downloads name])

/-- The version score `1 - 1/count` of a present versions map (JavaScript
yields negative infinity for an empty map). -/
def versionQuality (vs : List String) : JsNum :=
  JsNum.sub (.fin 1) (JsNum.div (.fin 1) (.fin (vs.length : ℚ)))

/-- The `estimateVersions` function of the source. -/
def estimateVersions (versions : Option (List String)) : Outcome JsNum :=
  match versions with
  | none => .ok (.fin 0)
  | some vs => .ok (versionQuality vs)

/-- Second waterfall stage: estimate downloads only when the running
quality is strictly positive, multiplying it in. -/
def stageDownloads (env : Env) (name : String) (q1 : JsNum) : Outcome JsNum × List Fetch :=
  if JsNum.gt q1 (.fin 0) then
    match estimateDownloadsLastYear env name with
    | (.ok dq, t) => (.ok (JsNum.mul q1 dq), t)
    | (.err s, t) => (.err s, t)
    | (.fault s, t) => (.fault s, t)
  else (.ok q1, [])

/-- Third waterfall stage: fetch the registry only when the running quality
is strictly positive; every failure path passes quality zero and a `null`
registry response forward, and a transport error reads
`response.statusCode` (faulting on an absent response). -/
def stageRegistry (env : Env) (name : String) (q : JsNum) :
    Outcome (JsNum × Option RegistryBody) × List Fetch :=
  if JsNum.gt q (.fin 0) then
    match env.registryFetch.error with
    | some _ =>
      match env.registryFetch.response with
      | none => (.fault statusCodeFaultMsg, [Fetch.registry name])
      | some resp =>
        if resp.statusCode = 404 then (.ok (.fin 0, none), [Fetch.registry name])
        else (.ok (.fin 0, none), [Fetch.registry name])
    | none =>
      match env.registryFetch.parsed with
      | .error _ => (.ok (.fin 0, none), [Fetch.registry name])
      | .ok body => (.ok (q, some body), [Fetch.registry name])
  else (.ok (q, none), [])

/-- Fourth waterfall stage: only when the running quality is strictly
positive, dereference `registryResponse.versions` (faulting on `null`) and
multiply the version score in. -/
def stageVersions (q : JsNum) (reg : Option RegistryBody) : Outcome JsNum :=
  if JsNum.gt q (.fin 0) then
    match reg with
    | none => .fault versionsFaultMsg
    | some r =>
      match estimateVersions r.versions with
      | .ok vq => .ok (JsNum.mul q vq)
      | .err s => .err s
      | .fault s => .fault s
  else .ok q

/-- Pipeline tail after the download stage produced quality `q2`. -/
def pipelineAfterDownloads (env : Env) (name : String) (q2 : JsNum) :
    Outcome JsNum × List Fetch :=
  match stageRegistry env name q2 with
  | (.ok (q3, reg), t3) => (stageVersions q3 reg, t3)
  | (.err s, t3) => (.err s, t3)
  | (.fault s, t3) => (.fault s, t3)

/-- Pipeline tail after the repository stage produced quality `q1`. -/
def pipelineAfterRepo (env : Env) (name : String) (q1 : JsNum) :
    Outcome JsNum × List Fetch :=
  match stageDownloads env name q1 with
  | (.ok q2, t2) =>
    ((pipelineAfterDownloads env name q2).1, t2 ++ (pipelineAfterDownloads env name q2).2)
  | (.err s, t2) => (.err s, t2)
  | (.fault s, t2) => (.fault s, t2)

/-- Model of `JSON.stringify` on an optional repository descriptor
(`undefined` fields are omitted, as `JSON.stringify` does). -/
def stringifyRepo (r : Repo) : String :=
  let fields :=
    (match r.type with
     | none => []
     | some s => ["\"type\":\"" ++ s ++ "\""]) ++
    (match r.url with
     | none => []
     | some s => ["\"url\":\"" ++ s ++ "\""])
  "\x7b" ++ String.intercalate "," fields ++ "\x7d"

/-- Model of `JSON.stringify` on the entry argument of `estimate` (`none`
models a `null` entry, printed as `null`). -/
def stringifyEntry : Option Entry → String
  | none => "null"
  | some e =>
    let fields :=
      (match e.name with
       | none => []
       | some s => ["\"name\":\"" ++ s ++ "\""]) ++
      (match e.repository with
       | none => []
       | some r => ["\"repository\":" ++ stringifyRepo r])
    "\x7b" ++ String.intercalate "," fields ++ "\x7d"

/-- Truthiness of the guard `!entry || !entry.name` of the source. -/
def entryFalsy : Option Entry → Bool
  | none => true
  | some e => isFalsyStr e.name

/-- The `estimate` function of the source: the whole waterfall, returning
the final callback outcome and the trace of network fetches performed. -/
def estimate (env : Env) (entry : Option Entry) : Outcome JsNum × List Fetch :=
  match entry with
  | none => (.err (stringifyEntry none ++ " is null or has no name"), [])
  | some e =>
    if isFalsyStr e.name then
      (.err (stringifyEntry (some e) ++ " is null or has no name"), [])
    else
      match estimateRepo env e.repository with
      | (.ok q1, t1) =>
        ((pipelineAfterRepo env (e.name.getD "") q1).1,
          t1 ++ (pipelineAfterRepo env (e.name.getD "") q1).2)
      | (.err s, t1) => (.err s, t1)
      | (.fault s, t1) => (.fault s, t1)

/-- A well-formed GitHub repository descriptor used in concrete runs. -/
def sampleRepo : Repo := { type := some "git", url := some "git@github.com:owner/repo.git" }

/-- A well-formed package entry used in concrete runs. -/
def sampleEntry : Entry := { name := some "testpkg", repository := some sampleRepo }

/-- Fetch outcome of a successful fetch whose body parses to `b`. -/
def okFetch (b : β) : FetchOutcome β := ⟨none, none, "", .ok b⟩

/-- Environment where all three fetches succeed with the given issue list,
download samples and version keys. -/
def mkEnv (issues : List Issue) (items : List DownloadItem) (vs : List String) : Env :=
  ⟨okFetch issues, okFetch ⟨some items⟩, okFetch ⟨some vs⟩⟩

/-- Environment whose registry fetch fails with a transport error carrying
no response object, while the issue and download fetches succeed. -/
def registryDownEnv : Env :=
  ⟨okFetch [⟨"closed"⟩], okFetch ⟨some [⟨2⟩]⟩,
    ⟨some "connect ECONNREFUSED", none, "", .ok ⟨none⟩⟩⟩

/-! Helper lemmas: JavaScript numbers, string helpers, and one
characterization lemma per branch of each pipeline stage. -/

theorem mul_fin_fin (a b : ℚ) : JsNum.mul (.fin a) (.fin b) = .fin (a * b) := rfl

theorem gt_fin_fin (a b : ℚ) : JsNum.gt (.fin a) (.fin b) = decide (b < a) := rfl

theorem startsWithList_self_append (p s : List Char) : startsWithList (p ++ s) p = true := by
  induction p with
  | nil => cases s <;> simp [startsWithList]
  | cons c cs ih => simpa [startsWithList] using ih

theorem fromFirst_self_append (p s : List Char) : fromFirst p (p ++ s) = s := by
  cases p with
  | nil => cases s with
    | nil => rfl
    | cons c r => simp [fromFirst, startsWithList]
  | cons c cs =>
    have h : startsWithList ((c :: cs) ++ s) (c :: cs) = true :=
      startsWithList_self_append (c :: cs) s
    simp only [List.cons_append] at h ⊢
    simp [fromFirst, h]

theorem upToFirst_of_not_occursIn (sep s : List Char) (h : occursIn sep s = false) :
    upToFirst sep s = s := by
  induction s with
  | nil => rfl
  | cons c r ih =>
    simp only [occursIn, Bool.or_eq_false_iff] at h
    simp [upToFirst, h.1, ih h.2]

theorem estimateRepo_noLoc (env : Env) (repo : Option Repo)
    (h : extractRepoInfo repo = none) :
    estimateRepo env repo = (.ok (.fin 0), []) := by
  simp [estimateRepo, h]

theorem estimateRepo_invalidLoc (env : Env) (repo : Option Repo) (loc : RepoLocation)
    (h : extractRepoInfo repo = some loc) (hv : loc.valid = false) :
    estimateRepo env repo = (.ok (.fin 0), []) := by
  simp [estimateRepo, h, hv]

theorem estimateRepo_transportErr (env : Env) (repo : Option Repo) (loc : RepoLocation)
    (er : String) (h : extractRepoInfo repo = some loc) (hv : loc.valid = true)
    (he : env.issuesFetch.error = some er) :
    estimateRepo env repo = (.ok (.fin 0), [Fetch.issues loc.owner loc.name]) := by
  simp [estimateRepo, h, hv, he]

theorem estimateRepo_parseErr (env : Env) (repo : Option Repo) (loc : RepoLocation)
    (exc : String) (h : extractRepoInfo repo = some loc) (hv : loc.valid = true)
    (he : env.issuesFetch.error = none) (hp : env.issuesFetch.parsed = .error exc) :
    estimateRepo env repo =
      (.err ("Invalid issues in " ++ env.issuesFetch.bodyText ++ ": " ++ exc),
        [Fetch.issues loc.owner loc.name]) := by
  simp [estimateRepo, h, hv, he, hp]

theorem estimateRepo_parsed (env : Env) (repo : Option Repo) (loc : RepoLocation)
    (issues : List Issue) (h : extractRepoInfo repo = some loc) (hv : loc.valid = true)
    (he : env.issuesFetch.error = none) (hp : env.issuesFetch.parsed = .ok issues) :
    estimateRepo env repo = (.ok (issueQuality issues), [Fetch.issues loc.owner loc.name]) := by
  simp [estimateRepo, h, hv, he, hp]

theorem edl_fault (env : Env) (name er : String)
    (he : env.downloadsFetch.error = some er) (hr : env.downloadsFetch.response = none) :
    estimateDownloadsLastYear env name = (.fault statusCodeFaultMsg, [Fetch.downloads name]) := by
  simp [estimateDownloadsLastYear, he, hr]

theorem edl_transportErr (env : Env) (name er : String) (resp : Response)
    (he : env.downloadsFetch.error = some er) (hr : env.downloadsFetch.response = some resp) :
    estimateDownloadsLastYear env name = (.ok (.fin 0), [Fetch.downloads name]) := by
  by_cases h404 : resp.statusCode = 404 <;> simp [estimateDownloadsLastYear, he, hr, h404]

theorem edl_parseErr (env : Env) (name exc : String)
    (he : env.downloadsFetch.error = none) (hp : env.downloadsFetch.parsed = .error exc) :
    estimateDownloadsLastYear env name =
      (.err ("Could not parse " ++ name ++ ": " ++ exc), [Fetch.downloads name]) := by
  simp [estimateDownloadsLastYear, he, hp]

theorem edl_parsed (env : Env) (name : String) (body : DownloadsBody)
    (he : env.downloadsFetch.error = none) (hp : env.downloadsFetch.parsed = .ok body) :
    estimateDownloadsLastYear env name = (.ok (downloadQuality body), [Fetch.downloads name]) := by
  simp [estimateDownloadsLastYear, he, hp]

theorem stageDownloads_skip (env : Env) (name : String) (q1 : JsNum)
    (h : JsNum.gt q1 (.fin 0) = false) :
    stageDownloads env name q1 = (.ok q1, []) := by
  simp [stageDownloads, h]

theorem stageDownloads_ok (env : Env) (name : String) (q1 dq : JsNum) (t : List Fetch)
    (h : JsNum.gt q1 (.fin 0) = true) (hd : estimateDownloadsLastYear env name = (.ok dq, t)) :
    stageDownloads env name q1 = (.ok (JsNum.mul q1 dq), t) := by
  simp [stageDownloads, h, hd]

theorem stageDownloads_err (env : Env) (name s : String) (q1 : JsNum) (t : List Fetch)
    (h : JsNum.gt q1 (.fin 0) = true) (hd : estimateDownloadsLastYear env name = (.err s, t)) :
    stageDownloads env name q1 = (.err s, t) := by
  simp [stageDownloads, h, hd]

theorem stageRegistry_skip (env : Env) (name : String) (q : JsNum)
    (h : JsNum.gt q (.fin 0) = false) :
    stageRegistry env name q = (.ok (q, none), []) := by
  simp [stageRegistry, h]

theorem stageRegistry_fault (env : Env) (name er : String) (q : JsNum)
    (h : JsNum.gt q (.fin 0) = true) (he : env.registryFetch.error = some er)
    (hr : env.registryFetch.response = none) :
    stageRegistry env name q = (.fault statusCodeFaultMsg, [Fetch.registry name]) := by
  simp [stageRegistry, h, he, hr]

theorem stageRegistry_transportErr (env : Env) (name er : String) (q : JsNum) (resp : Response)
    (h : JsNum.gt q (.fin 0) = true) (he : env.registryFetch.error = some er)
    (hr : env.registryFetch.response = some resp) :
    stageRegistry env name q = (.ok (.fin 0, none), [Fetch.registry name]) := by
  by_cases h404 : resp.statusCode = 404 <;> simp [stageRegistry, h, he, hr, h404]

theorem stageRegistry_parseErr (env : Env) (name exc : String) (q : JsNum)
    (h : JsNum.gt q (.fin 0) = true) (he : env.registryFetch.error = none)
    (hp : env.registryFetch.parsed = .error exc) :
    stageRegistry env name q = (.ok (.fin 0, none), [Fetch.registry name]) := by
  simp [stageRegistry, h, he, hp]

theorem stageRegistry_parsed (env : Env) (name : String) (q : JsNum) (body : RegistryBody)
    (h : JsNum.gt q (.fin 0) = true) (he : env.registryFetch.error = none)
    (hp : env.registryFetch.parsed = .ok body) :
    stageRegistry env name q = (.ok (q, some body), [Fetch.registry name]) := by
  simp [stageRegistry, h, he, hp]

theorem stageVersions_skip (q : JsNum) (reg : Option RegistryBody)
    (h : JsNum.gt q (.fin 0) = false) :
    stageVersions q reg = .ok q := by
  simp [stageVersions, h]

theorem stageVersions_null (q : JsNum) (h : JsNum.gt q (.fin 0) = true) :
    stageVersions q none = .fault versionsFaultMsg := by
  simp [stageVersions, h]

theorem stageVersions_some (q : JsNum) (r : RegistryBody) (vs : List String)
    (h : JsNum.gt q (.fin 0) = true) (hv : r.versions = some vs) :
    stageVersions q (some r) = .ok (JsNum.mul q (versionQuality vs)) := by
  simp [stageVersions, estimateVersions, h, hv]

theorem pad_ok (env : Env) (name : String) (q2 q3 : JsNum) (reg : Option RegistryBody)
    (t3 : List Fetch) (h : stageRegistry env name q2 = (.ok (q3, reg), t3)) :
    pipelineAfterDownloads env name q2 = (stageVersions q3 reg, t3) := by
  simp [pipelineAfterDownloads, h]

theorem pad_fault (env : Env) (name s : String) (q2 : JsNum) (t3 : List Fetch)
    (h : stageRegistry env name q2 = (.fault s, t3)) :
    pipelineAfterDownloads env name q2 = (.fault s, t3) := by
  simp [pipelineAfterDownloads, h]

theorem par_ok (env : Env) (name : String) (q1 q2 : JsNum) (t2 : List Fetch)
    (h : stageDownloads env name q1 = (.ok q2, t2)) :
    pipelineAfterRepo env name q1 =
      ((pipelineAfterDownloads env name q2).1, t2 ++ (pipelineAfterDownloads env name q2).2) := by
  simp [pipelineAfterRepo, h]

theorem par_err (env : Env) (name s : String) (q1 : JsNum) (t2 : List Fetch)
    (h : stageDownloads env name q1 = (.err s, t2)) :
    pipelineAfterRepo env name q1 = (.err s, t2) := by
  simp [pipelineAfterRepo, h]

theorem estimate_nullEntry (env : Env) :
    estimate env none = (.err (stringifyEntry none ++ " is null or has no name"), []) := rfl

theorem estimate_falsyName (env : Env) (e : Entry) (h : isFalsyStr e.name = true) :
    estimate env (some e) =
      (.err (stringifyEntry (some e) ++ " is null or has no name"), []) := by
  simp [estimate, h]

theorem estimate_repoOk (env : Env) (e : Entry) (q1 : JsNum) (t1 : List Fetch)
    (hn : isFalsyStr e.name = false) (h : estimateRepo env e.repository = (.ok q1, t1)) :
    estimate env (some e) =
      ((pipelineAfterRepo env (e.name.getD "") q1).1,
        t1 ++ (pipelineAfterRepo env (e.name.getD "") q1).2) := by
  simp [estimate, hn, h]

theorem estimate_repoErr (env : Env) (e : Entry) (s : String) (t1 : List Fetch)
    (hn : isFalsyStr e.name = false) (h : estimateRepo env e.repository = (.err s, t1)) :
    estimate env (some e) = (.err s, t1) := by
  simp [estimate, hn, h]

theorem issueQuality_fin (issues : List Issue) :
    ∃ a : ℚ, issueQuality issues = .fin a ∧ 0 ≤ a ∧ a ≤ 1 := by
  by_cases h : issues.length = 0
  · exact ⟨0, by simp [issueQuality, h], le_refl 0, by norm_num⟩
  · have hlen : (0 : ℚ) < (issues.length : ℚ) := by
      exact_mod_cast Nat.pos_of_ne_zero h
    have hle : (issues.countP (fun i => i.state == "open") : ℚ) ≤ (issues.length : ℚ) := by
      exact_mod_cast issues.countP_le_length (fun i => i.state == "open")
    have hge : (0 : ℚ) ≤ (issues.countP (fun i => i.state == "open") : ℚ) := by
      positivity
    refine ⟨1 - (issues.countP (fun i => i.state == "open") : ℚ) / (issues.length : ℚ),
      ?_, ?_, ?_⟩
    · simp [issueQuality, h, JsNum.sub, JsNum.div, ne_of_gt hlen]
    · have : (issues.countP (fun i => i.state == "open") : ℚ) / (issues.length : ℚ) ≤ 1 :=
        (div_le_one hlen).mpr hle
      linarith
    · have : (0 : ℚ) ≤ (issues.countP (fun i => i.state == "open") : ℚ) / (issues.length : ℚ) :=
        div_nonneg hge (le_of_lt hlen)
      linarith

theorem estimateRepo_ok_fin (env : Env) (repo : Option Repo) (q : JsNum) (t : List Fetch)
    (h : estimateRepo env repo = (.ok q, t)) :
    ∃ a : ℚ, q = .fin a ∧ 0 ≤ a ∧ a ≤ 1 := by
  unfold estimateRepo at h
  split at h
  · exact ⟨0, by simp_all, le_refl 0, by norm_num⟩
  · split at h
    · exact ⟨0, by simp_all, le_refl 0, by norm_num⟩
    · split at h
      · exact ⟨0, by simp_all, le_refl 0, by norm_num⟩
      · split at h
        · simp_all
        · rename_i issues heq
          obtain ⟨a, ha, h0, h1⟩ := issueQuality_fin issues
          have hq : q = issueQuality issues := by simp_all
          exact ⟨a, by rw [hq, ha], h0, h1⟩

theorem estimateRepo_trace (env : Env) (repo : Option Repo) :
    (estimateRepo env repo).2 = [] ∨
      ∃ o n, (estimateRepo env repo).2 = [Fetch.issues o n] := by
  unfold estimateRepo
  split
  · exact Or.inl rfl
  · split
    · exact Or.inl rfl
    · split
      · exact Or.inr ⟨_, _, rfl⟩
      · split
        · exact Or.inr ⟨_, _, rfl⟩
        · exact Or.inr ⟨_, _, rfl⟩

theorem edl_trace (env : Env) (name : String) :
    (estimateDownloadsLastYear env name).2 = [Fetch.downloads name] := by
  unfold estimateDownloadsLastYear
  split
  · split
    · rfl
    · split <;> rfl
  · split <;> rfl

theorem gt_fin_zero_iff (a : ℚ) : JsNum.gt (.fin a) (.fin 0) = true ↔ 0 < a := by
  simp [JsNum.gt]

theorem gt_fin_zero_false (a : ℚ) (h : a ≤ 0) : JsNum.gt (.fin a) (.fin 0) = false := by
  simpa [JsNum.gt] using h

theorem pipelineAfterRepo_zero (env : Env) (name : String) :
    pipelineAfterRepo env name (.fin 0) = (.ok (.fin 0), []) := by
  have h1 : JsNum.gt (.fin 0) (.fin 0) = false := gt_fin_zero_false 0 (le_refl 0)
  simp [pipelineAfterRepo, pipelineAfterDownloads, stageDownloads_skip env name _ h1,
    stageRegistry_skip env name _ h1, stageVersions_skip _ _ h1]

/-- C4 (confirmed): for a located repository whose issue fetch succeeds and
parses, the issue score is 0 when the total issue count is 0 and otherwise
1 - open/total, where total counts every returned issue whatever its state
and open counts those with state "open"; moreover a nonempty list with zero
open issues scores exactly 1 and a nonempty list with every issue open
scores exactly 0. -/
theorem c4_issue_score (env : Env) (repo : Option Repo) (loc : RepoLocation)
    (issues : List Issue) (h : extractRepoInfo repo = some loc) (hv : loc.valid = true)
    (he : env.issuesFetch.error = none) (hp : env.issuesFetch.parsed = .ok issues) :
    ((estimateRepo env repo).1 =
        .ok (if issues.length = 0 then .fin 0
          else .fin (1 - (issues.countP (fun i => i.state == "open") : ℚ) / (issues.length : ℚ)))) ∧
    (issues.length ≠ 0 → issues.countP (fun i => i.state == "open") = 0 →
      (estimateRepo env repo).1 = .ok (.fin 1)) ∧
    ((∀ i ∈ issues, i.state = "open") → issues.length ≠ 0 →
      (estimateRepo env repo).1 = .ok (.fin 0)) := by
  rw [estimateRepo_parsed env repo loc issues h hv he hp]
  refine ⟨?_, ?_, ?_⟩
  · by_cases hl : issues.length = 0
    · simp [issueQuality, hl]
    · have hne : ((issues.length : ℚ)) ≠ 0 := by exact_mod_cast hl
      simp [issueQuality, hl, JsNum.sub, JsNum.div, hne]
  · intro hl h0
    have hne : ((issues.length : ℚ)) ≠ 0 := by exact_mod_cast hl
    simp [issueQuality, hl, h0, JsNum.sub, JsNum.div, hne]
  · intro hall hl
    have hcount : issues.countP (fun i => i.state == "open") = issues.length :=
      List.countP_eq_length.mpr (fun a ha => by simpa using hall a ha)
    have hne : ((issues.length : ℚ)) ≠ 0 := by exact_mod_cast hl
    simp [issueQuality, hl, hcount, JsNum.sub, JsNum.div, hne, div_self hne]

/-- C4 witness: the spec's own example list [open, open, closed] scores
1 - 2/3 = 1/3, via `c4_issue_score`. -/
theorem c4_witness :
    (estimateRepo (mkEnv [⟨"open"⟩, ⟨"open"⟩, ⟨"closed"⟩] [] []) (some sampleRepo)).1 =
      .ok (.fin (1/3)) := by
  have h := (c4_issue_score (mkEnv [⟨"open"⟩, ⟨"open"⟩, ⟨"closed"⟩] [] []) (some sampleRepo)
    ⟨true, "owner", "repo"⟩ [⟨"open"⟩, ⟨"open"⟩, ⟨"closed"⟩] (by decide) rfl rfl rfl).1
  have hc : ([⟨"open"⟩, ⟨"open"⟩, ⟨"closed"⟩] : List Issue).countP
      (fun i => i.state == "open") = 2 := by decide
  rw [h, hc]
  norm_num

/-- C7 (confirmed): a null entry, or an entry whose name is absent or empty,
makes `estimate` fail immediately with an error built from the JSON
serialization of the entry, performing no network fetch at all. -/
theorem c7_no_name_fails (env : Env) (entry : Option Entry)
    (h : entryFalsy entry = true) :
    estimate env entry =
      (.err (stringifyEntry entry ++ " is null or has no name"), []) := by
  match entry with
  | none => exact estimate_nullEntry env
  | some e => exact estimate_falsyName env e (by simpa [entryFalsy] using h)

/-- C7 witness: the entry with an empty name fails immediately with the
error naming its serialization, and the trace of fetches is empty. -/
theorem c7_witness :
    estimate (mkEnv [] [] []) (some ⟨some "", none⟩) =
      (.err (stringifyEntry (some ⟨some "", none⟩) ++ " is null or has no name"), []) :=
  c7_no_name_fails (mkEnv [] [] []) (some ⟨some "", none⟩) (by decide)

/-- C8 (code_bug): on a transport error of the download-series fetch the
source reads `response.statusCode` before yielding 0, so with an absent
response object the scorer faults with a TypeError instead of yielding 0;
with a response object present it does yield score 0. -/
theorem c8_transport_error_faults :
    estimateDownloadsLastYear
        ⟨okFetch [], ⟨some "connect ECONNREFUSED", none, "", .ok ⟨none⟩⟩, okFetch ⟨none⟩⟩
        "some-package" =
      (.fault statusCodeFaultMsg, [Fetch.downloads "some-package"]) ∧
    estimateDownloadsLastYear
        ⟨okFetch [], ⟨some "connect ECONNREFUSED", some ⟨500⟩, "", .ok ⟨none⟩⟩, okFetch ⟨none⟩⟩
        "some-package" =
      (.ok (.fin 0), [Fetch.downloads "some-package"]) := by
  constructor
  · exact edl_fault _ _ "connect ECONNREFUSED" rfl rfl
  · exact edl_transportErr _ _ "connect ECONNREFUSED" ⟨500⟩ rfl rfl

/-- C5 counterexample: the claim that every per-signal score lies in [0,1)
apart from an exact-0 degenerate case fails on the code: a nonempty issue
list with no open issue scores exactly 1, a download series summing to 0
scores negative infinity, and an empty versions map scores negative
infinity. -/
theorem c5_counterexample :
    issueQuality [⟨"closed"⟩] = .fin 1 ∧ ¬((1 : ℚ) < 1) ∧ (1 : ℚ) ≠ 0 ∧
    downloadQuality ⟨some [⟨0⟩]⟩ = .negInf ∧
    versionQuality [] = .negInf := by
  refine ⟨?_, by norm_num, by norm_num, ?_, ?_⟩
  · have hc : ([⟨"closed"⟩] : List Issue).countP (fun i => i.state == "open") = 0 := by decide
    norm_num [issueQuality, hc, JsNum.sub, JsNum.div]
  · norm_num [downloadQuality, JsNum.sub, JsNum.div]
  · norm_num [versionQuality, JsNum.sub, JsNum.div]

/-- C5 (corrected): bounds of the per-signal scores as the code computes
them: the issue score always lies in [0,1] (1 is attained at zero open
issues); the download score is exactly 0 when the downloads field is
absent, lies in [0,1) when the samples sum to at least 1, and is negative
infinity when they sum to 0; the version score is exactly 0 for an absent
versions map, lies in [0,1) for a nonempty map, and is negative infinity
for an empty one. -/
theorem c5_signal_score_ranges :
    (∀ issues : List Issue, ∃ a : ℚ, issueQuality issues = .fin a ∧ 0 ≤ a ∧ a ≤ 1) ∧
    (∀ body : DownloadsBody, body.downloads = none → downloadQuality body = .fin 0) ∧
    (∀ items : List DownloadItem, 1 ≤ (items.map DownloadItem.downloads).sum →
      ∃ a : ℚ, downloadQuality ⟨some items⟩ = .fin a ∧ 0 ≤ a ∧ a < 1) ∧
    (∀ items : List DownloadItem, (items.map DownloadItem.downloads).sum = 0 →
      downloadQuality ⟨some items⟩ = .negInf) ∧
    (estimateVersions none = .ok (.fin 0)) ∧
    (∀ vs : List String, vs ≠ [] → ∃ a : ℚ, versionQuality vs = .fin a ∧ 0 ≤ a ∧ a < 1) ∧
    (versionQuality [] = .negInf) := by
  refine ⟨issueQuality_fin, ?_, ?_, ?_, rfl, ?_, ?_⟩
  · intro body hb
    simp [downloadQuality, hb]
  · intro items hs
    have hne : (items.map DownloadItem.downloads).sum ≠ 0 := by linarith
    refine ⟨1 - 1 / (items.map DownloadItem.downloads).sum, ?_, ?_, ?_⟩
    · simp [downloadQuality, JsNum.sub, JsNum.div, hne]
    · have : 1 / (items.map DownloadItem.downloads).sum ≤ 1 := by
        rw [div_le_one (by linarith)]
        exact hs
      linarith
    · have : 0 < 1 / (items.map DownloadItem.downloads).sum := by positivity
      linarith
  · intro items hs
    simp [downloadQuality, JsNum.sub, JsNum.div, hs]
  · intro vs hvs
    have hpos : 0 < (vs.length : ℚ) := by
      have := List.length_pos.mpr hvs
      exact_mod_cast this
    refine ⟨1 - 1 / (vs.length : ℚ), ?_, ?_, ?_⟩
    · simp [versionQuality, JsNum.sub, JsNum.div, ne_of_gt hpos]
    · have h1 : (1 : ℚ) ≤ (vs.length : ℚ) := by
        have := List.length_pos.mpr hvs
        exact_mod_cast this
      have : 1 / (vs.length : ℚ) ≤ 1 := by
        rw [div_le_one hpos]
        exact h1
      linarith
    · have : 0 < 1 / (vs.length : ℚ) := by positivity
      linarith
  · norm_num [versionQuality, JsNum.sub, JsNum.div]

/-- C5 witness: concrete instances of each clause of
`c5_signal_score_ranges`. -/
theorem c5_witness :
    (∃ a : ℚ, issueQuality [⟨"open"⟩] = .fin a ∧ 0 ≤ a ∧ a ≤ 1) ∧
    downloadQuality ⟨none⟩ = .fin 0 ∧
    (∃ a : ℚ, downloadQuality ⟨some [⟨999⟩]⟩ = .fin a ∧ 0 ≤ a ∧ a < 1) ∧
    downloadQuality ⟨some [⟨5⟩, ⟨-5⟩]⟩ = .negInf ∧
    (∃ a : ℚ, versionQuality ["1.0.0", "1.0.1", "1.0.2", "1.0.3"] = .fin a ∧ 0 ≤ a ∧ a < 1) ∧
    versionQuality [] = .negInf :=
  ⟨c5_signal_score_ranges.1 [⟨"open"⟩],
   c5_signal_score_ranges.2.1 ⟨none⟩ rfl,
   c5_signal_score_ranges.2.2.1 [⟨999⟩] (by norm_num),
   c5_signal_score_ranges.2.2.2.1 [⟨5⟩, ⟨-5⟩] (by norm_num),
   c5_signal_score_ranges.2.2.2.2.2.1 ["1.0.0", "1.0.1", "1.0.2", "1.0.3"] (by decide),
   c5_signal_score_ranges.2.2.2.2.2.2⟩

/-- C2 counterexample: a failed registry fetch of the typical kind — a
transport error with no accompanying response object — does not make
`estimate` return 0: the source reads `response.statusCode` inside the
error branch and the run aborts with a TypeError instead. -/
theorem c2_counterexample :
    registryDownEnv.registryFetch.error = some "connect ECONNREFUSED" ∧
    registryDownEnv.registryFetch.response = none ∧
    estimate registryDownEnv (some sampleEntry) =
      (.fault statusCodeFaultMsg,
        [Fetch.issues "owner" "repo", Fetch.downloads "testpkg", Fetch.registry "testpkg"]) ∧
    (estimate registryDownEnv (some sampleEntry)).1 ≠ .ok (.fin 0) := by
  have hc : ([⟨"closed"⟩] : List Issue).countP (fun i => i.state == "open") = 0 := by decide
  have hrep : estimateRepo registryDownEnv sampleEntry.repository =
      (.ok (.fin 1), [Fetch.issues "owner" "repo"]) := by
    rw [estimateRepo_parsed _ _ ⟨true, "owner", "repo"⟩ [⟨"closed"⟩] (by decide) rfl rfl rfl]
    norm_num [issueQuality, hc, JsNum.sub, JsNum.div]
  have hedl : estimateDownloadsLastYear registryDownEnv "testpkg" =
      (.ok (.fin (1/2)), [Fetch.downloads "testpkg"]) := by
    rw [edl_parsed _ _ ⟨some [⟨2⟩]⟩ rfl rfl]
    norm_num [downloadQuality, JsNum.sub, JsNum.div]
  have hgt1 : JsNum.gt (.fin 1) (.fin 0) = true := (gt_fin_zero_iff 1).mpr (by norm_num)
  have hgt2 : JsNum.gt (.fin (1/2)) (.fin 0) = true := (gt_fin_zero_iff _).mpr (by norm_num)
  have hsd : stageDownloads registryDownEnv "testpkg" (.fin 1) =
      (.ok (.fin (1/2)), [Fetch.downloads "testpkg"]) := by
    rw [stageDownloads_ok _ _ _ _ _ hgt1 hedl, mul_fin_fin]
    norm_num
  have hname : sampleEntry.name.getD "" = "testpkg" := rfl
  have hmain : estimate registryDownEnv (some sampleEntry) =
      (.fault statusCodeFaultMsg,
        [Fetch.issues "owner" "repo", Fetch.downloads "testpkg", Fetch.registry "testpkg"]) := by
    rw [estimate_repoOk _ sampleEntry (.fin 1) [Fetch.issues "owner" "repo"] (by decide) hrep,
      hname, par_ok _ "testpkg" (.fin 1) (.fin (1/2)) [Fetch.downloads "testpkg"] hsd,
      pad_fault _ "testpkg" statusCodeFaultMsg (.fin (1/2)) [Fetch.registry "testpkg"]
        (stageRegistry_fault _ "testpkg" "connect ECONNREFUSED" (.fin (1/2)) hgt2 rfl rfl)]
    simp
  exact ⟨rfl, rfl, hmain, by rw [hmain]; simp⟩

/-- C2 (corrected): every stage after the repository stage runs only when
the running product is strictly positive: with an invalid repository
location no fetch at all happens and 0 is returned; with a zero issue
score no download or registry fetch happens and 0 is returned; with a zero
download score no registry fetch happens and 0 is returned; after a failed
registry fetch that carries a response object, or whose body is
unparseable, nothing further is fetched and 0 is returned; and after a
registry transport error with no response object nothing further is
fetched either, but the run aborts with the statusCode TypeError instead
of returning 0. -/
theorem c2_short_circuit :
    (∀ (env : Env) (e : Entry), isFalsyStr e.name = false →
      (extractRepoInfo e.repository = none ∨
        ∃ loc, extractRepoInfo e.repository = some loc ∧ loc.valid = false) →
      estimate env (some e) = (.ok (.fin 0), [])) ∧
    (∀ (env : Env) (e : Entry) (t1 : List Fetch), isFalsyStr e.name = false →
      estimateRepo env e.repository = (.ok (.fin 0), t1) →
      estimate env (some e) = (.ok (.fin 0), t1) ∧
        ∀ n, Fetch.downloads n ∉ t1 ∧ Fetch.registry n ∉ t1) ∧
    (∀ (env : Env) (e : Entry) (q1 : JsNum) (t1 t2 : List Fetch),
      isFalsyStr e.name = false →
      estimateRepo env e.repository = (.ok q1, t1) →
      JsNum.gt q1 (.fin 0) = true →
      estimateDownloadsLastYear env (e.name.getD "") = (.ok (.fin 0), t2) →
      estimate env (some e) = (.ok (.fin 0), t1 ++ t2) ∧
        ∀ n, Fetch.registry n ∉ t1 ++ t2) ∧
    (∀ (env : Env) (e : Entry) (q1 dq : JsNum) (t1 t2 : List Fetch),
      isFalsyStr e.name = false →
      estimateRepo env e.repository = (.ok q1, t1) →
      JsNum.gt q1 (.fin 0) = true →
      estimateDownloadsLastYear env (e.name.getD "") = (.ok dq, t2) →
      JsNum.gt (JsNum.mul q1 dq) (.fin 0) = true →
      ((∃ er resp, env.registryFetch.error = some er ∧
          env.registryFetch.response = some resp) ∨
        (env.registryFetch.error = none ∧
          ∃ exc, env.registryFetch.parsed = .error exc)) →
      estimate env (some e) =
        (.ok (.fin 0), t1 ++ t2 ++ [Fetch.registry (e.name.getD "")])) ∧
    (∀ (env : Env) (e : Entry) (q1 dq : JsNum) (t1 t2 : List Fetch) (er : String),
      isFalsyStr e.name = false →
      estimateRepo env e.repository = (.ok q1, t1) →
      JsNum.gt q1 (.fin 0) = true →
      estimateDownloadsLastYear env (e.name.getD "") = (.ok dq, t2) →
      JsNum.gt (JsNum.mul q1 dq) (.fin 0) = true →
      env.registryFetch.error = some er → env.registryFetch.response = none →
      estimate env (some e) =
        (.fault statusCodeFaultMsg, t1 ++ t2 ++ [Fetch.registry (e.name.getD "")])) := by
  have hmemRepo : ∀ (env : Env) (repo : Option Repo) (q : JsNum) (t1 : List Fetch),
      estimateRepo env repo = (.ok q, t1) →
      ∀ n, Fetch.downloads n ∉ t1 ∧ Fetch.registry n ∉ t1 := by
    intro env repo q t1 h n
    have htr := estimateRepo_trace env repo
    rw [h] at htr
    rcases htr with htr | ⟨o, n', htr⟩ <;> simp at htr <;> subst htr <;> simp
  refine ⟨?_, ?_, ?_, ?_, ?_⟩
  · intro env e hn hloc
    have hrep : estimateRepo env e.repository = (.ok (.fin 0), []) := by
      rcases hloc with h | ⟨loc, h, hv⟩
      · exact estimateRepo_noLoc env e.repository h
      · exact estimateRepo_invalidLoc env e.repository loc h hv
    rw [estimate_repoOk env e (.fin 0) [] hn hrep, pipelineAfterRepo_zero]
    simp
  · intro env e t1 hn hrep
    constructor
    · rw [estimate_repoOk env e (.fin 0) t1 hn hrep, pipelineAfterRepo_zero]
      simp
    · exact hmemRepo env e.repository (.fin 0) t1 hrep
  · intro env e q1 t1 t2 hn hrep hq1 hdl
    obtain ⟨a, rfl, ha0, ha1⟩ := estimateRepo_ok_fin env e.repository q1 t1 hrep
    have hmul : JsNum.mul (.fin a) (.fin 0) = .fin 0 := by
      rw [mul_fin_fin]; norm_num
    have hsd : stageDownloads env (e.name.getD "") (.fin a) = (.ok (.fin 0), t2) := by
      rw [stageDownloads_ok env (e.name.getD "") (.fin a) (.fin 0) t2 hq1 hdl, hmul]
    have hgt0 : JsNum.gt (.fin 0) (.fin 0) = false := gt_fin_zero_false 0 (le_refl 0)
    have hpad : pipelineAfterDownloads env (e.name.getD "") (.fin 0) = (.ok (.fin 0), []) := by
      rw [pad_ok env (e.name.getD "") (.fin 0) (.fin 0) none []
          (stageRegistry_skip env (e.name.getD "") (.fin 0) hgt0),
        stageVersions_skip (.fin 0) none hgt0]
    constructor
    · rw [estimate_repoOk env e (.fin a) t1 hn hrep,
        par_ok env (e.name.getD "") (.fin a) (.fin 0) t2 hsd, hpad]
      simp
    · intro n
      have ht2 : t2 = [Fetch.downloads (e.name.getD "")] := by
        have := edl_trace env (e.name.getD "")
        rw [hdl] at this
        simpa using this
      have hm := hmemRepo env e.repository (.fin a) t1 hrep n
      subst ht2
      simp [hm.2]
  · intro env e q1 dq t1 t2 hn hrep hq1 hdl hq2 hregfail
    have hreg : stageRegistry env (e.name.getD "") (JsNum.mul q1 dq) =
        (.ok (.fin 0, none), [Fetch.registry (e.name.getD "")]) := by
      rcases hregfail with ⟨er, resp, he, hr⟩ | ⟨he, exc, hp⟩
      · exact stageRegistry_transportErr env (e.name.getD "") er (JsNum.mul q1 dq) resp hq2 he hr
      · exact stageRegistry_parseErr env (e.name.getD "") exc (JsNum.mul q1 dq) hq2 he hp
    have hgt0 : JsNum.gt (.fin 0) (.fin 0) = false := gt_fin_zero_false 0 (le_refl 0)
    have hpad : pipelineAfterDownloads env (e.name.getD "") (JsNum.mul q1 dq) =
        (.ok (.fin 0), [Fetch.registry (e.name.getD "")]) := by
      rw [pad_ok env (e.name.getD "") (JsNum.mul q1 dq) (.fin 0) none
          [Fetch.registry (e.name.getD "")] hreg,
        stageVersions_skip (.fin 0) none hgt0]
    rw [estimate_repoOk env e q1 t1 hn hrep,
      par_ok env (e.name.getD "") q1 (JsNum.mul q1 dq) t2
        (stageDownloads_ok env (e.name.getD "") q1 dq t2 hq1 hdl),
      hpad]
    simp
  · intro env e q1 dq t1 t2 er hn hrep hq1 hdl hq2 he hr
    rw [estimate_repoOk env e q1 t1 hn hrep,
      par_ok env (e.name.getD "") q1 (JsNum.mul q1 dq) t2
        (stageDownloads_ok env (e.name.getD "") q1 dq t2 hq1 hdl),
      pad_fault env (e.name.getD "") statusCodeFaultMsg (JsNum.mul q1 dq)
        [Fetch.registry (e.name.getD "")]
        (stageRegistry_fault env (e.name.getD "") er (JsNum.mul q1 dq) hq2 he hr)]
    simp

/-- C2 witness: the five cases of `c2_short_circuit` at concrete inputs:
an svn-typed repository, an issue transport error, a download total of 1
(download score 0), an unparseable registry body, and a registry transport
error with no response object (the faulting case). -/
theorem c2_witness :
    estimate (mkEnv [] [] []) (some ⟨some "p", some ⟨some "svn", some "http://host/o/r"⟩⟩) =
      (.ok (.fin 0), []) ∧
    estimate ⟨⟨some "boom", none, "", .ok []⟩, okFetch ⟨none⟩, okFetch ⟨none⟩⟩
        (some sampleEntry) =
      (.ok (.fin 0), [Fetch.issues "owner" "repo"]) ∧
    estimate ⟨okFetch [⟨"closed"⟩], okFetch ⟨some [⟨1⟩]⟩, okFetch ⟨none⟩⟩ (some sampleEntry) =
      (.ok (.fin 0), [Fetch.issues "owner" "repo", Fetch.downloads "testpkg"]) ∧
    estimate ⟨okFetch [⟨"closed"⟩], okFetch ⟨some [⟨2⟩]⟩,
        ⟨none, none, "<oops>", .error "SyntaxError: Unexpected token"⟩⟩ (some sampleEntry) =
      (.ok (.fin 0),
        [Fetch.issues "owner" "repo", Fetch.downloads "testpkg", Fetch.registry "testpkg"]) ∧
    estimate registryDownEnv (some sampleEntry) =
      (.fault statusCodeFaultMsg,
        [Fetch.issues "owner" "repo", Fetch.downloads "testpkg", Fetch.registry "testpkg"]) := by
  refine ⟨?_, ?_, ?_, ?_, ?_⟩
  · exact c2_short_circuit.1 (mkEnv [] [] []) _ (by decide) (Or.inl (by decide))
  · exact (c2_short_circuit.2.1 _ sampleEntry [Fetch.issues "owner" "repo"] (by decide)
      (estimateRepo_transportErr _ _ ⟨true, "owner", "repo"⟩ "boom" (by decide) rfl rfl)).1
  · refine (c2_short_circuit.2.2.1 _ sampleEntry (.fin 1) [Fetch.issues "owner" "repo"]
      [Fetch.downloads "testpkg"] (by decide) ?_ ?_ ?_).1
    · rw [estimateRepo_parsed _ _ ⟨true, "owner", "repo"⟩ [⟨"closed"⟩] (by decide) rfl rfl rfl]
      have hc : ([⟨"closed"⟩] : List Issue).countP (fun i => i.state == "open") = 0 := by decide
      norm_num [issueQuality, hc, JsNum.sub, JsNum.div]
    · exact (gt_fin_zero_iff 1).mpr (by norm_num)
    · rw [edl_parsed _ _ ⟨some [⟨1⟩]⟩ rfl rfl]
      norm_num [downloadQuality, JsNum.sub, JsNum.div]
      rfl
  · refine c2_short_circuit.2.2.2.1 _ sampleEntry (.fin 1) (.fin (1/2))
      [Fetch.issues "owner" "repo"] [Fetch.downloads "testpkg"] (by decide) ?_ ?_ ?_ ?_
      (Or.inr ⟨rfl, "SyntaxError: Unexpected token", rfl⟩)
    · rw [estimateRepo_parsed _ _ ⟨true, "owner", "repo"⟩ [⟨"closed"⟩] (by decide) rfl rfl rfl]
      have hc : ([⟨"closed"⟩] : List Issue).countP (fun i => i.state == "open") = 0 := by decide
      norm_num [issueQuality, hc, JsNum.sub, JsNum.div]
    · exact (gt_fin_zero_iff 1).mpr (by norm_num)
    · rw [edl_parsed _ _ ⟨some [⟨2⟩]⟩ rfl rfl]
      norm_num [downloadQuality, JsNum.sub, JsNum.div]
      rfl
    · rw [mul_fin_fin]
      exact (gt_fin_zero_iff _).mpr (by norm_num)
  · refine c2_short_circuit.2.2.2.2 registryDownEnv sampleEntry (.fin 1) (.fin (1/2))
      [Fetch.issues "owner" "repo"] [Fetch.downloads "testpkg"] "connect ECONNREFUSED"
      (by decide) ?_ ?_ ?_ ?_ rfl rfl
    · rw [estimateRepo_parsed _ _ ⟨true, "owner", "repo"⟩ [⟨"closed"⟩] (by decide) rfl rfl rfl]
      have hc : ([⟨"closed"⟩] : List Issue).countP (fun i => i.state == "open") = 0 := by decide
      norm_num [issueQuality, hc, JsNum.sub, JsNum.div]
    · exact (gt_fin_zero_iff 1).mpr (by norm_num)
    · rw [edl_parsed _ _ ⟨some [⟨2⟩]⟩ rfl rfl]
      norm_num [downloadQuality, JsNum.sub, JsNum.div]
      rfl
    · rw [mul_fin_fin]
      exact (gt_fin_zero_iff _).mpr (by norm_num)

/-- C3 (confirmed): an unparseable issue-list body or download-series body
aborts the whole `estimate` call with the descriptive error the source
builds (no score is returned), while an unparseable registry body does not
abort: the pipeline sets the product to 0 and returns normally. -/
theorem c3_parse_failures :
    (∀ (env : Env) (e : Entry) (loc : RepoLocation) (exc : String),
      isFalsyStr e.name = false →
      extractRepoInfo e.repository = some loc → loc.valid = true →
      env.issuesFetch.error = none → env.issuesFetch.parsed = .error exc →
      (estimate env (some e)).1 =
        .err ("Invalid issues in " ++ env.issuesFetch.bodyText ++ ": " ++ exc)) ∧
    (∀ (env : Env) (e : Entry) (q1 : JsNum) (t1 : List Fetch) (exc : String),
      isFalsyStr e.name = false →
      estimateRepo env e.repository = (.ok q1, t1) → JsNum.gt q1 (.fin 0) = true →
      env.downloadsFetch.error = none → env.downloadsFetch.parsed = .error exc →
      (estimate env (some e)).1 =
        .err ("Could not parse " ++ e.name.getD "" ++ ": " ++ exc)) ∧
    (∀ (env : Env) (e : Entry) (q1 dq : JsNum) (t1 t2 : List Fetch) (exc : String),
      isFalsyStr e.name = false →
      estimateRepo env e.repository = (.ok q1, t1) → JsNum.gt q1 (.fin 0) = true →
      estimateDownloadsLastYear env (e.name.getD "") = (.ok dq, t2) →
      JsNum.gt (JsNum.mul q1 dq) (.fin 0) = true →
      env.registryFetch.error = none → env.registryFetch.parsed = .error exc →
      (estimate env (some e)).1 = .ok (.fin 0)) := by
  refine ⟨?_, ?_, ?_⟩
  · intro env e loc exc hn hl hv he hp
    rw [estimate_repoErr env e _ _ hn (estimateRepo_parseErr env e.repository loc exc hl hv he hp)]
  · intro env e q1 t1 exc hn hrep hq1 he hp
    rw [estimate_repoOk env e q1 t1 hn hrep,
      par_err env (e.name.getD "") _ q1 _
        (stageDownloads_err env (e.name.getD "") _ q1 _ hq1
          (edl_parseErr env (e.name.getD "") exc he hp))]
  · intro env e q1 dq t1 t2 exc hn hrep hq1 hdl hq2 he hp
    have hgt0 : JsNum.gt (.fin 0) (.fin 0) = false := gt_fin_zero_false 0 (le_refl 0)
    rw [estimate_repoOk env e q1 t1 hn hrep,
      par_ok env (e.name.getD "") q1 (JsNum.mul q1 dq) t2
        (stageDownloads_ok env (e.name.getD "") q1 dq t2 hq1 hdl),
      pad_ok env (e.name.getD "") (JsNum.mul q1 dq) (.fin 0) none
        [Fetch.registry (e.name.getD "")]
        (stageRegistry_parseErr env (e.name.getD "") exc (JsNum.mul q1 dq) hq2 he hp),
      stageVersions_skip (.fin 0) none hgt0]

/-- C3 witness: concrete runs for each clause of `c3_parse_failures`: an
unparseable issue body aborts with its error, an unparseable download body
aborts with its error, an unparseable registry body returns score 0. -/
theorem c3_witness :
    (estimate ⟨⟨none, none, "<html>", .error "SyntaxError: Unexpected token"⟩,
        okFetch ⟨none⟩, okFetch ⟨none⟩⟩ (some sampleEntry)).1 =
      .err ("Invalid issues in " ++ "<html>" ++ ": " ++ "SyntaxError: Unexpected token") ∧
    (estimate ⟨okFetch [⟨"closed"⟩], ⟨none, none, "<html>", .error "SyntaxError: bad"⟩,
        okFetch ⟨none⟩⟩ (some sampleEntry)).1 =
      .err ("Could not parse " ++ "testpkg" ++ ": " ++ "SyntaxError: bad") ∧
    (estimate ⟨okFetch [⟨"closed"⟩], okFetch ⟨some [⟨2⟩]⟩,
        ⟨none, none, "<html>", .error "SyntaxError: bad"⟩⟩ (some sampleEntry)).1 =
      .ok (.fin 0) := by
  refine ⟨?_, ?_, ?_⟩
  · exact c3_parse_failures.1 _ sampleEntry ⟨true, "owner", "repo"⟩
      "SyntaxError: Unexpected token" (by decide) (by decide) rfl rfl rfl
  · refine c3_parse_failures.2.1 _ sampleEntry (.fin 1) [Fetch.issues "owner" "repo"]
      "SyntaxError: bad" (by decide) ?_ ?_ rfl rfl
    · rw [estimateRepo_parsed _ _ ⟨true, "owner", "repo"⟩ [⟨"closed"⟩] (by decide) rfl rfl rfl]
      have hc : ([⟨"closed"⟩] : List Issue).countP (fun i => i.state == "open") = 0 := by decide
      norm_num [issueQuality, hc, JsNum.sub, JsNum.div]
    · exact (gt_fin_zero_iff 1).mpr (by norm_num)
  · refine c3_parse_failures.2.2 _ sampleEntry (.fin 1) (.fin (1/2))
      [Fetch.issues "owner" "repo"] [Fetch.downloads "testpkg"] "SyntaxError: bad"
      (by decide) ?_ ?_ ?_ ?_ rfl rfl
    · rw [estimateRepo_parsed _ _ ⟨true, "owner", "repo"⟩ [⟨"closed"⟩] (by decide) rfl rfl rfl]
      have hc : ([⟨"closed"⟩] : List Issue).countP (fun i => i.state == "open") = 0 := by decide
      norm_num [issueQuality, hc, JsNum.sub, JsNum.div]
    · exact (gt_fin_zero_iff 1).mpr (by norm_num)
    · rw [edl_parsed _ _ ⟨some [⟨2⟩]⟩ rfl rfl]
      norm_num [downloadQuality, JsNum.sub, JsNum.div]
      rfl
    · rw [mul_fin_fin]
      exact (gt_fin_zero_iff _).mpr (by norm_num)

/-- C1 counterexample: every hypothesis of the claim holds — the repository
locates, the issue score is 1 > 0, the download score is 1/2 > 0, and the
registry fetch succeeds with a versions map — yet with a single-version map
the final score is exactly 0, not strictly between 0 and 1. -/
theorem c1_counterexample :
    issueQuality [⟨"closed"⟩] = .fin 1 ∧ (0 : ℚ) < 1 ∧
    downloadQuality ⟨some [⟨2⟩]⟩ = .fin (1/2) ∧ (0 : ℚ) < 1/2 ∧
    (estimate (mkEnv [⟨"closed"⟩] [⟨2⟩] ["1.0.0"]) (some sampleEntry)).1 = .ok (.fin 0) := by
  have hc : ([⟨"closed"⟩] : List Issue).countP (fun i => i.state == "open") = 0 := by decide
  have hiq : issueQuality [⟨"closed"⟩] = .fin 1 := by
    norm_num [issueQuality, hc, JsNum.sub, JsNum.div]
  have hdq : downloadQuality ⟨some [⟨2⟩]⟩ = .fin (1/2) := by
    norm_num [downloadQuality, JsNum.sub, JsNum.div]
  refine ⟨hiq, by norm_num, hdq, by norm_num, ?_⟩
  have hgt1 : JsNum.gt (.fin 1) (.fin 0) = true := (gt_fin_zero_iff 1).mpr (by norm_num)
  have hgt2 : JsNum.gt (.fin (1/2)) (.fin 0) = true := (gt_fin_zero_iff _).mpr (by norm_num)
  have hrep : estimateRepo (mkEnv [⟨"closed"⟩] [⟨2⟩] ["1.0.0"]) sampleEntry.repository =
      (.ok (.fin 1), [Fetch.issues "owner" "repo"]) := by
    rw [estimateRepo_parsed _ _ ⟨true, "owner", "repo"⟩ [⟨"closed"⟩] (by decide) rfl rfl rfl, hiq]
  have hdl : estimateDownloadsLastYear (mkEnv [⟨"closed"⟩] [⟨2⟩] ["1.0.0"]) "testpkg" =
      (.ok (.fin (1/2)), [Fetch.downloads "testpkg"]) := by
    rw [edl_parsed _ _ ⟨some [⟨2⟩]⟩ rfl rfl, hdq]
  have hsd : stageDownloads (mkEnv [⟨"closed"⟩] [⟨2⟩] ["1.0.0"]) "testpkg" (.fin 1) =
      (.ok (.fin (1/2)), [Fetch.downloads "testpkg"]) := by
    rw [stageDownloads_ok _ _ _ _ _ hgt1 hdl, mul_fin_fin]
    norm_num
  have hreg : stageRegistry (mkEnv [⟨"closed"⟩] [⟨2⟩] ["1.0.0"]) "testpkg" (.fin (1/2)) =
      (.ok (.fin (1/2), some ⟨some ["1.0.0"]⟩), [Fetch.registry "testpkg"]) :=
    stageRegistry_parsed _ _ _ _ hgt2 rfl rfl
  have hvq : versionQuality ["1.0.0"] = .fin 0 := by
    norm_num [versionQuality, JsNum.sub, JsNum.div]
  have hname : sampleEntry.name.getD "" = "testpkg" := rfl
  rw [estimate_repoOk _ sampleEntry (.fin 1) [Fetch.issues "owner" "repo"] (by decide) hrep,
    hname, par_ok _ "testpkg" (.fin 1) (.fin (1/2)) [Fetch.downloads "testpkg"] hsd,
    pad_ok _ "testpkg" (.fin (1/2)) (.fin (1/2)) (some ⟨some ["1.0.0"]⟩)
      [Fetch.registry "testpkg"] hreg,
    stageVersions_some (.fin (1/2)) ⟨some ["1.0.0"]⟩ ["1.0.0"] hgt2 rfl, hvq, mul_fin_fin]
  norm_num

/-- C1 (corrected): for an entry whose repository locates with an issue
score above 0 (some issue is not open), whose download series sums above 1
(download score strictly positive and below 1), and whose registry fetch
succeeds with a versions map of at least 2 versions, `estimate` returns
exactly the product of the three signal scores, a rational strictly
between 0 and 1. -/
theorem c1_product_in_range (env : Env) (e : Entry) (loc : RepoLocation)
    (issues : List Issue) (items : List DownloadItem) (vs : List String)
    (hn : isFalsyStr e.name = false)
    (hl : extractRepoInfo e.repository = some loc) (hv : loc.valid = true)
    (hie : env.issuesFetch.error = none) (hip : env.issuesFetch.parsed = .ok issues)
    (hopen : issues.countP (fun i => i.state == "open") < issues.length)
    (hde : env.downloadsFetch.error = none)
    (hdp : env.downloadsFetch.parsed = .ok ⟨some items⟩)
    (hd1 : 1 < (items.map DownloadItem.downloads).sum)
    (hre : env.registryFetch.error = none)
    (hrp : env.registryFetch.parsed = .ok ⟨some vs⟩)
    (hvs : 2 ≤ vs.length) :
    ∃ qi qd qv : ℚ,
      issueQuality issues = .fin qi ∧
      downloadQuality ⟨some items⟩ = .fin qd ∧
      versionQuality vs = .fin qv ∧
      (estimate env (some e)).1 = .ok (.fin (qi * qd * qv)) ∧
      0 < qi * qd * qv ∧ qi * qd * qv < 1 := by
  have ht : issues.length ≠ 0 := by
    intro h0
    rw [h0] at hopen
    exact Nat.not_lt_zero _ hopen
  have htq : (0 : ℚ) < (issues.length : ℚ) := by
    exact_mod_cast Nat.pos_of_ne_zero ht
  have hoq : (issues.countP (fun i => i.state == "open") : ℚ) < (issues.length : ℚ) := by
    exact_mod_cast hopen
  have honn : (0 : ℚ) ≤ (issues.countP (fun i => i.state == "open") : ℚ) := by positivity
  have hiq : issueQuality issues =
      .fin (1 - (issues.countP (fun i => i.state == "open") : ℚ) / (issues.length : ℚ)) := by
    simp [issueQuality, ht, JsNum.sub, JsNum.div, ne_of_gt htq]
  have hqi0 : 0 < 1 - (issues.countP (fun i => i.state == "open") : ℚ) / (issues.length : ℚ) := by
    have : (issues.countP (fun i => i.state == "open") : ℚ) / (issues.length : ℚ) < 1 :=
      (div_lt_one htq).mpr hoq
    linarith
  have hqi1 : 1 - (issues.countP (fun i => i.state == "open") : ℚ) / (issues.length : ℚ) ≤ 1 := by
    have : 0 ≤ (issues.countP (fun i => i.state == "open") : ℚ) / (issues.length : ℚ) :=
      div_nonneg honn (le_of_lt htq)
    linarith
  have hdpos : (0 : ℚ) < (items.map DownloadItem.downloads).sum := by linarith
  have hdq : downloadQuality ⟨some items⟩ = .fin (1 - 1 / (items.map DownloadItem.downloads).sum) := by
    simp [downloadQuality, JsNum.sub, JsNum.div, ne_of_gt hdpos]
  have hqd0 : 0 < 1 - 1 / (items.map DownloadItem.downloads).sum := by
    have : 1 / (items.map DownloadItem.downloads).sum < 1 := (div_lt_one hdpos).mpr hd1
    linarith
  have hqd1 : 1 - 1 / (items.map DownloadItem.downloads).sum < 1 := by
    have : 0 < 1 / (items.map DownloadItem.downloads).sum := by positivity
    linarith
  have hnq : (0 : ℚ) < (vs.length : ℚ) := by
    have : 0 < vs.length := by omega
    exact_mod_cast this
  have hn2 : (2 : ℚ) ≤ (vs.length : ℚ) := by exact_mod_cast hvs
  have hvq : versionQuality vs = .fin (1 - 1 / (vs.length : ℚ)) := by
    simp [versionQuality, JsNum.sub, JsNum.div, ne_of_gt hnq]
  have hqv0 : 0 < 1 - 1 / (vs.length : ℚ) := by
    have : 1 / (vs.length : ℚ) < 1 := by
      rw [div_lt_one hnq]
      linarith
    linarith
  have hqv1 : 1 - 1 / (vs.length : ℚ) < 1 := by
    have : 0 < 1 / (vs.length : ℚ) := by positivity
    linarith
  refine ⟨1 - (issues.countP (fun i => i.state == "open") : ℚ) / (issues.length : ℚ),
    1 - 1 / (items.map DownloadItem.downloads).sum, 1 - 1 / (vs.length : ℚ),
    hiq, hdq, hvq, ?_, ?_, ?_⟩
  · have hrep : estimateRepo env e.repository =
        (.ok (.fin (1 - (issues.countP (fun i => i.state == "open") : ℚ) / (issues.length : ℚ))),
          [Fetch.issues loc.owner loc.name]) := by
      rw [estimateRepo_parsed env e.repository loc issues hl hv hie hip, hiq]
    have hgt1 := (gt_fin_zero_iff _).mpr hqi0
    have hgt2 := (gt_fin_zero_iff
      ((1 - (issues.countP (fun i => i.state == "open") : ℚ) / (issues.length : ℚ)) *
        (1 - 1 / (items.map DownloadItem.downloads).sum))).mpr (mul_pos hqi0 hqd0)
    have hdl : estimateDownloadsLastYear env (e.name.getD "") =
        (.ok (.fin (1 - 1 / (items.map DownloadItem.downloads).sum)),
          [Fetch.downloads (e.name.getD "")]) := by
      rw [edl_parsed env (e.name.getD "") ⟨some items⟩ hde hdp, hdq]
    rw [estimate_repoOk env e _ _ hn hrep,
      par_ok env (e.name.getD "") _ _ _ (stageDownloads_ok env (e.name.getD "") _ _ _ hgt1 hdl),
      mul_fin_fin,
      pad_ok env (e.name.getD "") _ _ (some ⟨some vs⟩) [Fetch.registry (e.name.getD "")]
        (stageRegistry_parsed env (e.name.getD "") _ ⟨some vs⟩ hgt2 hre hrp),
      stageVersions_some _ ⟨some vs⟩ vs hgt2 rfl, hvq, mul_fin_fin]
  · exact mul_pos (mul_pos hqi0 hqd0) hqv0
  · nlinarith [mul_pos hqi0 hqd0, mul_pos hqd0 hqv0]

/-- C1 witness: a run with issue score 1/2, download total 5 and two
versions gives the product score 1/2 · 4/5 · 1/2 = 1/5, strictly between 0
and 1, via `c1_product_in_range`. -/
theorem c1_witness :
    ∃ qi qd qv : ℚ,
      issueQuality [⟨"closed"⟩, ⟨"open"⟩] = .fin qi ∧
      downloadQuality ⟨some [⟨2⟩, ⟨3⟩]⟩ = .fin qd ∧
      versionQuality ["1.0.0", "1.0.1"] = .fin qv ∧
      (estimate (mkEnv [⟨"closed"⟩, ⟨"open"⟩] [⟨2⟩, ⟨3⟩] ["1.0.0", "1.0.1"])
        (some sampleEntry)).1 = .ok (.fin (qi * qd * qv)) ∧
      0 < qi * qd * qv ∧ qi * qd * qv < 1 :=
  c1_product_in_range _ sampleEntry ⟨true, "owner", "repo"⟩
    [⟨"closed"⟩, ⟨"open"⟩] [⟨2⟩, ⟨3⟩] ["1.0.0", "1.0.1"]
    (by decide) (by decide) rfl rfl rfl (by decide) rfl rfl
    (by norm_num) rfl rfl (by norm_num)

theorem estimate_zero_issue (env : Env) (e : Entry) (t1 : List Fetch)
    (hn : isFalsyStr e.name = false)
    (hrep : estimateRepo env e.repository = (.ok (.fin 0), t1)) :
    estimate env (some e) = (.ok (.fin 0), t1) := by
  rw [estimate_repoOk env e (.fin 0) t1 hn hrep, pipelineAfterRepo_zero]
  simp

theorem estimate_zero_download (env : Env) (e : Entry) (q1 : JsNum) (t1 t2 : List Fetch)
    (hn : isFalsyStr e.name = false)
    (hrep : estimateRepo env e.repository = (.ok q1, t1))
    (hq1 : JsNum.gt q1 (.fin 0) = true)
    (hedl : estimateDownloadsLastYear env (e.name.getD "") = (.ok (.fin 0), t2)) :
    estimate env (some e) = (.ok (.fin 0), t1 ++ t2) := by
  obtain ⟨a, rfl, ha0, ha1⟩ := estimateRepo_ok_fin env e.repository q1 t1 hrep
  have hmul : JsNum.mul (.fin a) (.fin 0) = .fin 0 := by rw [mul_fin_fin]; norm_num
  have hsd : stageDownloads env (e.name.getD "") (.fin a) = (.ok (.fin 0), t2) := by
    rw [stageDownloads_ok env (e.name.getD "") (.fin a) (.fin 0) t2 hq1 hedl, hmul]
  have hgt0 : JsNum.gt (.fin 0) (.fin 0) = false := gt_fin_zero_false 0 (le_refl 0)
  have hpad : pipelineAfterDownloads env (e.name.getD "") (.fin 0) = (.ok (.fin 0), []) := by
    rw [pad_ok env (e.name.getD "") (.fin 0) (.fin 0) none []
        (stageRegistry_skip env (e.name.getD "") (.fin 0) hgt0),
      stageVersions_skip (.fin 0) none hgt0]
  rw [estimate_repoOk env e (.fin a) t1 hn hrep,
    par_ok env (e.name.getD "") (.fin a) (.fin 0) t2 hsd, hpad]
  simp

theorem estimate_full_product (env : Env) (e : Entry) (loc : RepoLocation)
    (issues : List Issue) (items : List DownloadItem) (vs : List String)
    (qi dq vq : ℚ)
    (hn : isFalsyStr e.name = false)
    (hl : extractRepoInfo e.repository = some loc) (hv : loc.valid = true)
    (hie : env.issuesFetch.error = none) (hip : env.issuesFetch.parsed = .ok issues)
    (hiq : issueQuality issues = .fin qi) (hqi : 0 < qi)
    (hde : env.downloadsFetch.error = none)
    (hdp : env.downloadsFetch.parsed = .ok ⟨some items⟩)
    (hdqe : downloadQuality ⟨some items⟩ = .fin dq) (hdqp : 0 < dq)
    (hre : env.registryFetch.error = none) (hrp : env.registryFetch.parsed = .ok ⟨some vs⟩)
    (hvqe : versionQuality vs = .fin vq) :
    (estimate env (some e)).1 = .ok (.fin (qi * dq * vq)) := by
  have hrep : estimateRepo env e.repository =
      (.ok (.fin qi), [Fetch.issues loc.owner loc.name]) := by
    rw [estimateRepo_parsed env e.repository loc issues hl hv hie hip, hiq]
  have hgt1 := (gt_fin_zero_iff qi).mpr hqi
  have hgt2 := (gt_fin_zero_iff (qi * dq)).mpr (mul_pos hqi hdqp)
  have hedl : estimateDownloadsLastYear env (e.name.getD "") =
      (.ok (.fin dq), [Fetch.downloads (e.name.getD "")]) := by
    rw [edl_parsed env (e.name.getD "") ⟨some items⟩ hde hdp, hdqe]
  rw [estimate_repoOk env e (.fin qi) _ hn hrep,
    par_ok env (e.name.getD "") (.fin qi) _ _
      (stageDownloads_ok env (e.name.getD "") (.fin qi) (.fin dq) _ hgt1 hedl),
    mul_fin_fin,
    pad_ok env (e.name.getD "") (.fin (qi * dq)) _ (some ⟨some vs⟩)
      [Fetch.registry (e.name.getD "")]
      (stageRegistry_parsed env (e.name.getD "") (.fin (qi * dq)) ⟨some vs⟩ hgt2 hre hrp),
    stageVersions_some (.fin (qi * dq)) ⟨some vs⟩ vs hgt2 rfl, hvqe, mul_fin_fin]

/-- C9 counterexample: holding the download series (total 1, download score
0) and the versions map fixed, lowering the open-issue ratio from 1/2 to 0
leaves the consolidated score at exactly 0 in both runs: it does not
strictly increase. -/
theorem c9_counterexample :
    ([⟨"open"⟩, ⟨"closed"⟩] : List Issue).countP (fun i => i.state == "open") = 1 ∧
    ([⟨"closed"⟩] : List Issue).countP (fun i => i.state == "open") = 0 ∧
    ((0 : ℚ) / 1 < (1 : ℚ) / 2) ∧
    (estimate (mkEnv [⟨"open"⟩, ⟨"closed"⟩] [⟨1⟩] ["1.0.0", "1.0.1"]) (some sampleEntry)).1 =
      .ok (.fin 0) ∧
    (estimate (mkEnv [⟨"closed"⟩] [⟨1⟩] ["1.0.0", "1.0.1"]) (some sampleEntry)).1 =
      .ok (.fin 0) ∧
    ¬ ((0 : ℚ) < 0) := by
  have hcA : ([⟨"open"⟩, ⟨"closed"⟩] : List Issue).countP (fun i => i.state == "open") = 1 := by
    decide
  have hcB : ([⟨"closed"⟩] : List Issue).countP (fun i => i.state == "open") = 0 := by decide
  refine ⟨hcA, hcB, by norm_num, ?_, ?_, by norm_num⟩
  · have hrep : estimateRepo (mkEnv [⟨"open"⟩, ⟨"closed"⟩] [⟨1⟩] ["1.0.0", "1.0.1"])
        sampleEntry.repository =
        (.ok (.fin (1/2)), [Fetch.issues "owner" "repo"]) := by
      rw [estimateRepo_parsed _ _ ⟨true, "owner", "repo"⟩ [⟨"open"⟩, ⟨"closed"⟩]
        (by decide) rfl rfl rfl]
      norm_num [issueQuality, hcA, JsNum.sub, JsNum.div]
    have hedl : estimateDownloadsLastYear (mkEnv [⟨"open"⟩, ⟨"closed"⟩] [⟨1⟩] ["1.0.0", "1.0.1"])
        "testpkg" = (.ok (.fin 0), [Fetch.downloads "testpkg"]) := by
      rw [edl_parsed _ _ ⟨some [⟨1⟩]⟩ rfl rfl]
      norm_num [downloadQuality, JsNum.sub, JsNum.div]
    rw [estimate_zero_download _ sampleEntry (.fin (1/2)) [Fetch.issues "owner" "repo"]
      [Fetch.downloads "testpkg"] (by decide) hrep
      ((gt_fin_zero_iff _).mpr (by norm_num)) hedl]
  · have hrep : estimateRepo (mkEnv [⟨"closed"⟩] [⟨1⟩] ["1.0.0", "1.0.1"])
        sampleEntry.repository = (.ok (.fin 1), [Fetch.issues "owner" "repo"]) := by
      rw [estimateRepo_parsed _ _ ⟨true, "owner", "repo"⟩ [⟨"closed"⟩] (by decide) rfl rfl rfl]
      norm_num [issueQuality, hcB, JsNum.sub, JsNum.div]
    have hedl : estimateDownloadsLastYear (mkEnv [⟨"closed"⟩] [⟨1⟩] ["1.0.0", "1.0.1"])
        "testpkg" = (.ok (.fin 0), [Fetch.downloads "testpkg"]) := by
      rw [edl_parsed _ _ ⟨some [⟨1⟩]⟩ rfl rfl]
      norm_num [downloadQuality, JsNum.sub, JsNum.div]
    rw [estimate_zero_download _ sampleEntry (.fin 1) [Fetch.issues "owner" "repo"]
      [Fetch.downloads "testpkg"] (by decide) hrep
      ((gt_fin_zero_iff _).mpr (by norm_num)) hedl]

/-- C9 (corrected): for two runs that differ only in the fetched issue
list, with the download score and version score fixed at the same strictly
positive values and the registry fetch succeeding, a strictly lower
open-issue ratio gives a strictly greater consolidated score. -/
theorem c9_lower_ratio_higher_score (env env' : Env) (e : Entry) (loc : RepoLocation)
    (issues issues' : List Issue) (items : List DownloadItem) (vs : List String)
    (hn : isFalsyStr e.name = false)
    (hl : extractRepoInfo e.repository = some loc) (hv : loc.valid = true)
    (hie : env.issuesFetch.error = none) (hip : env.issuesFetch.parsed = .ok issues)
    (hie' : env'.issuesFetch.error = none) (hip' : env'.issuesFetch.parsed = .ok issues')
    (hdfix : env'.downloadsFetch = env.downloadsFetch)
    (hrfix : env'.registryFetch = env.registryFetch)
    (hde : env.downloadsFetch.error = none)
    (hdp : env.downloadsFetch.parsed = .ok ⟨some items⟩)
    (hd0 : (items.map DownloadItem.downloads).sum ≠ 0)
    (hdq0 : 0 < 1 - 1 / (items.map DownloadItem.downloads).sum)
    (hre : env.registryFetch.error = none) (hrp : env.registryFetch.parsed = .ok ⟨some vs⟩)
    (hvs : vs ≠ []) (hvq0 : 0 < 1 - 1 / (vs.length : ℚ))
    (ht : issues.length ≠ 0) (ht' : issues'.length ≠ 0)
    (hlt : (issues'.countP (fun i => i.state == "open") : ℚ) / (issues'.length : ℚ) <
           (issues.countP (fun i => i.state == "open") : ℚ) / (issues.length : ℚ)) :
    ∃ q q' : ℚ, (estimate env (some e)).1 = .ok (.fin q) ∧
      (estimate env' (some e)).1 = .ok (.fin q') ∧ q < q' := by
  have hde' : env'.downloadsFetch.error = none := by rw [hdfix]; exact hde
  have hdp' : env'.downloadsFetch.parsed = .ok ⟨some items⟩ := by rw [hdfix]; exact hdp
  have hre' : env'.registryFetch.error = none := by rw [hrfix]; exact hre
  have hrp' : env'.registryFetch.parsed = .ok ⟨some vs⟩ := by rw [hrfix]; exact hrp
  have htq : (0 : ℚ) < (issues.length : ℚ) := by exact_mod_cast Nat.pos_of_ne_zero ht
  have htq' : (0 : ℚ) < (issues'.length : ℚ) := by exact_mod_cast Nat.pos_of_ne_zero ht'
  have hdsum : (0 : ℚ) < (vs.length : ℚ) := by
    have : 0 < vs.length := List.length_pos.mpr hvs
    exact_mod_cast this
  have hiq : issueQuality issues =
      .fin (1 - (issues.countP (fun i => i.state == "open") : ℚ) / (issues.length : ℚ)) := by
    simp [issueQuality, ht, JsNum.sub, JsNum.div, ne_of_gt htq]
  have hiq' : issueQuality issues' =
      .fin (1 - (issues'.countP (fun i => i.state == "open") : ℚ) / (issues'.length : ℚ)) := by
    simp [issueQuality, ht', JsNum.sub, JsNum.div, ne_of_gt htq']
  have hdqe : downloadQuality ⟨some items⟩ =
      .fin (1 - 1 / (items.map DownloadItem.downloads).sum) := by
    simp [downloadQuality, JsNum.sub, JsNum.div, hd0]
  have hvqe : versionQuality vs = .fin (1 - 1 / (vs.length : ℚ)) := by
    simp [versionQuality, JsNum.sub, JsNum.div, ne_of_gt hdsum]
  have hr1 : (issues.countP (fun i => i.state == "open") : ℚ) / (issues.length : ℚ) ≤ 1 := by
    rw [div_le_one htq]
    exact_mod_cast issues.countP_le_length (fun i => i.state == "open")
  have hr0' : (0 : ℚ) ≤ (issues'.countP (fun i => i.state == "open") : ℚ) / (issues'.length : ℚ) :=
    div_nonneg (by positivity) (le_of_lt htq')
  have hqi' : 0 < 1 - (issues'.countP (fun i => i.state == "open") : ℚ) / (issues'.length : ℚ) := by
    linarith
  have hq'eq := estimate_full_product env' e loc issues' items vs
    (1 - (issues'.countP (fun i => i.state == "open") : ℚ) / (issues'.length : ℚ))
    (1 - 1 / (items.map DownloadItem.downloads).sum) (1 - 1 / (vs.length : ℚ))
    hn hl hv hie' hip' hiq' hqi' hde' hdp' hdqe hdq0 hre' hrp' hvqe
  by_cases hcase : 0 < 1 - (issues.countP (fun i => i.state == "open") : ℚ) / (issues.length : ℚ)
  · have hqeq := estimate_full_product env e loc issues items vs
      (1 - (issues.countP (fun i => i.state == "open") : ℚ) / (issues.length : ℚ))
      (1 - 1 / (items.map DownloadItem.downloads).sum) (1 - 1 / (vs.length : ℚ))
      hn hl hv hie hip hiq hcase hde hdp hdqe hdq0 hre hrp hvqe
    refine ⟨_, _, hqeq, hq'eq, ?_⟩
    nlinarith [mul_pos hdq0 hvq0, sub_pos.mpr hlt]
  · have hzero : 1 - (issues.countP (fun i => i.state == "open") : ℚ) / (issues.length : ℚ) = 0 := by
      have : 1 - (issues.countP (fun i => i.state == "open") : ℚ) / (issues.length : ℚ) ≥ 0 := by
        linarith
      have hle : 1 - (issues.countP (fun i => i.state == "open") : ℚ) / (issues.length : ℚ) ≤ 0 := by
        by_contra hcon
        exact hcase (by linarith)
      linarith
    have hrep : estimateRepo env e.repository =
        (.ok (.fin 0), [Fetch.issues loc.owner loc.name]) := by
      rw [estimateRepo_parsed env e.repository loc issues hl hv hie hip, hiq, hzero]
    have hq0 := estimate_zero_issue env e [Fetch.issues loc.owner loc.name] hn hrep
    refine ⟨0, _, by rw [hq0], hq'eq, ?_⟩
    have h1 : 0 < (1 - (issues'.countP (fun i => i.state == "open") : ℚ) / (issues'.length : ℚ)) *
        (1 - 1 / (items.map DownloadItem.downloads).sum) := mul_pos hqi' hdq0
    exact mul_pos h1 hvq0

/-- C9 witness: lowering the open-issue ratio from 1/2 to 0 with download
total 5 and two versions raises the consolidated score, via
`c9_lower_ratio_higher_score`. -/
theorem c9_witness :
    ∃ q q' : ℚ,
      (estimate (mkEnv [⟨"open"⟩, ⟨"closed"⟩] [⟨2⟩, ⟨3⟩] ["1.0.0", "1.0.1"])
        (some sampleEntry)).1 = .ok (.fin q) ∧
      (estimate (mkEnv [⟨"closed"⟩] [⟨2⟩, ⟨3⟩] ["1.0.0", "1.0.1"])
        (some sampleEntry)).1 = .ok (.fin q') ∧ q < q' :=
  c9_lower_ratio_higher_score
    (mkEnv [⟨"open"⟩, ⟨"closed"⟩] [⟨2⟩, ⟨3⟩] ["1.0.0", "1.0.1"])
    (mkEnv [⟨"closed"⟩] [⟨2⟩, ⟨3⟩] ["1.0.0", "1.0.1"])
    sampleEntry ⟨true, "owner", "repo"⟩ [⟨"open"⟩, ⟨"closed"⟩] [⟨"closed"⟩]
    [⟨2⟩, ⟨3⟩] ["1.0.0", "1.0.1"]
    (by decide) (by decide) rfl rfl rfl rfl rfl rfl rfl rfl rfl
    (by norm_num) (by norm_num) rfl rfl (by decide) (by norm_num)
    (by decide) (by decide)
    (by
      rw [show ([⟨"closed"⟩] : List Issue).countP (fun i => i.state == "open") = 0 from by decide,
        show ([⟨"open"⟩, ⟨"closed"⟩] : List Issue).countP (fun i => i.state == "open") = 1 from by
          decide]
      norm_num)

theorem extractRepoInfo_git_at (rest : List Char) :
    extractRepoInfo
      (some ⟨some "git", some (String.mk ("git@github.com:".data ++ rest))⟩) =
      some (extractPieces (String.mk rest) 0) := by
  have hu : isFalsyStr (some (String.mk ("git@github.com:".data ++ rest))) = false := by
    simp only [isFalsyStr]
    rw [beq_eq_false_iff_ne]
    intro hcontra
    have hdata : ("git@github.com:".data ++ rest) = ("" : String).data :=
      congrArg String.data hcontra
    obtain ⟨h1, h2⟩ := List.append_eq_nil.mp hdata
    exact absurd h1 (by decide)
  have hsw : jsStartsWith (String.mk ("git@github.com:".data ++ rest)) "git@github.com:" = true :=
    startsWithList_self_append _ _
  have hsf : substringFrom (String.mk ("git@github.com:".data ++ rest)) "git@github.com:" =
      String.mk rest :=
    congrArg String.mk (fromFirst_self_append ("git@github.com:".data) rest)
  generalize hU : String.mk ("git@github.com:".data ++ rest) = u at hu hsw hsf
  simp [extractRepoInfo, hu, hsw, hsf]
  decide

/-- C6 counterexample: the extracted name segment is cut at the first
occurrence of ".git", not only at a trailing suffix: the name
"my.github.repo" carries no trailing ".git" suffix, yet the locator yields
"my" instead of leaving it unchanged. -/
theorem c6_counterexample :
    extractRepoInfo (some ⟨some "git", some "git@github.com:owner/my.github.repo"⟩) =
      some ⟨true, "owner", "my"⟩ ∧
    "my" ≠ "my.github.repo" := ⟨by decide, by decide⟩

/-- C6 (corrected): for a git-typed descriptor whose URL is
"git@github.com:" followed by `rest`, the locator strips that prefix and
splits the remainder on "/": exactly 2 segments yield a valid location
taking them as owner and name, the name truncated at its first occurrence
of ".git" (so a trailing ".git" suffix is removed, and a name with no
".git" occurrence anywhere is unchanged), any other segment count yields
an invalid location, and the URL git@github.com:owner/repo.git yields
owner "owner" and name "repo". -/
theorem c6_git_at_locator (rest : List Char) :
    (∀ o n : String, jsSplit (String.mk rest) '/' = [o, n] →
      extractRepoInfo
          (some ⟨some "git", some (String.mk ("git@github.com:".data ++ rest))⟩) =
        some ⟨true, o, substringUpTo n ".git"⟩) ∧
    ((jsSplit (String.mk rest) '/').length ≠ 2 →
      extractRepoInfo
          (some ⟨some "git", some (String.mk ("git@github.com:".data ++ rest))⟩) =
        some ⟨false, "", ""⟩) ∧
    (∀ s : String, occursIn (".git".data) s.data = false → substringUpTo s ".git" = s) ∧
    extractRepoInfo (some ⟨some "git", some "git@github.com:owner/repo.git"⟩) =
      some ⟨true, "owner", "repo"⟩ := by
  refine ⟨?_, ?_, ?_, by decide⟩
  · intro o n hsplit
    rw [extractRepoInfo_git_at rest]
    simp [extractPieces, hsplit]
  · intro hlen
    rw [extractRepoInfo_git_at rest]
    simp [extractPieces, hlen]
  · intro s hs
    calc substringUpTo s ".git" = String.mk s.data :=
      congrArg String.mk (upToFirst_of_not_occursIn (".git".data) s.data hs)
    _ = s := rfl

/-- C6 witness: the three hypothesised clauses of `c6_git_at_locator` at
concrete inputs: a two-segment URL, a three-segment URL, and a name with
no ".git" occurrence. -/
theorem c6_witness :
    extractRepoInfo (some ⟨some "git",
        some (String.mk ("git@github.com:".data ++ "owner/repo.git".data))⟩) =
      some ⟨true, "owner", substringUpTo "repo.git" ".git"⟩ ∧
    extractRepoInfo (some ⟨some "git",
        some (String.mk ("git@github.com:".data ++ "owner/name/extra".data))⟩) =
      some ⟨false, "", ""⟩ ∧
    substringUpTo "repo" ".git" = "repo" :=
  ⟨(c6_git_at_locator "owner/repo.git".data).1 "owner" "repo.git" (by decide),
   (c6_git_at_locator "owner/name/extra".data).2.1 (by decide),
   (c6_git_at_locator []).2.2.1 "repo" (by decide)⟩
